import Mathlib

/-!
Verification development for the Hobq desert globe application.

The embedding covers the three algorithmic cores of the repository:

* the geospatial projection and surface orientation used by
  `SolarPanels` and `HobqDataOverlay` in `src/components/Earth.tsx`
  (including the three.js `Quaternion.setFromUnitVectors`,
  `Quaternion.normalize`, `Vector3.normalize`, `Vector3.applyQuaternion`
  and `Vector3.lerp` routines the code calls);
* the gesture classifier and the change-detection throttle of
  `predictWebcam` in `src/components/HandController.tsx`;
* the control-state binding of the gesture effect in `AppContent`
  (`src/unnamed/part_001`).

Discrete logic (throttle, control binding) is embedded over `ℚ`, so it
is executable and decidable; the geometric layer, which uses square
roots and trigonometry, is embedded over `ℝ`.
-/

namespace Hobq

/-! ### Gesture state (`HandGestureState` in `src/unnamed/part_000`)

The discrete copy used by the throttle and the control binding carries
the numeric fields over `ℚ`. -/

structure HandGestureState where
  isPalmOpen : Bool
  isFist : Bool
  isPinching : Bool
  pinchDistance : ℚ
  handPosition : ℚ × ℚ
  deriving DecidableEq, Repr

/-! ### Change-detection throttle (`predictWebcam`, HandController.tsx 214–225)

`hasChanged` is the `hasChanged` expression of the source; `throttleStep`
returns the new `previousStateRef` value together with whether
`onGestureUpdate` was called. -/

def hasChanged (prev newState : HandGestureState) : Bool :=
  (prev.isPalmOpen != newState.isPalmOpen) ||
  (prev.isFist != newState.isFist) ||
  (prev.isPinching != newState.isPinching) ||
  decide (|prev.pinchDistance - newState.pinchDistance| > 5/100)

def throttleStep (prev newState : HandGestureState) : HandGestureState × Bool :=
  if hasChanged prev newState then (newState, true) else (prev, false)

/-! ### Control state (the Leva controls of `AppContent`, src/unnamed/part_001) -/

structure ControlState where
  viewMode : String
  activeLayer : String
  autoRotate : Bool
  demStrength : ℚ
  pvScale : ℚ
  particlesEnabled : Bool
  highlightColor : String
  pvColor : String
  deriving DecidableEq, Repr

/-- The `useControls` defaults of `AppContent`. -/
def initialControls : ControlState :=
  { viewMode := "China"
    activeLayer := "Mean"
    autoRotate := true
    demStrength := 3/2
    pvScale := 1/10
    particlesEnabled := true
    highlightColor := "#00ffcc"
    pvColor := "#0066cc" }

/-! ### Gesture → control binding (the gesture effect of `AppContent`,
src/unnamed/part_001 lines 91–112).

The source snapshots the current controls once, then (1) toggles
`autoRotate` from `isPalmOpen` / `isFist`, and (2) on `isPinching`
clamps `pvScale + 0.02` to `[0,1]` and writes it only when it moved by
more than `0.01`. -/

def applyGesture (gestureState : HandGestureState) (currentControls : ControlState) :
    ControlState :=
  let c1 :=
    if gestureState.isPalmOpen then
      (if !currentControls.autoRotate then { currentControls with autoRotate := true }
       else currentControls)
    else if gestureState.isFist then
      (if currentControls.autoRotate then { currentControls with autoRotate := false }
       else currentControls)
    else currentControls
  if gestureState.isPinching then
    let newScale := min 1 (max 0 (currentControls.pvScale + 2/100))
    if |newScale - currentControls.pvScale| > 1/100 then { c1 with pvScale := newScale }
    else c1
  else c1

/-- A pure pinching gesture, used to exercise the binding. -/
def pinchGesture : HandGestureState :=
  { isPalmOpen := false
    isFist := false
    isPinching := true
    pinchDistance := 5/100
    handPosition := (1/2, 1/2) }

/-! ### Geometric layer: three.js vectors and quaternions over `ℝ` -/

@[ext]
structure Vec3 where
  x : ℝ
  y : ℝ
  z : ℝ

@[ext]
structure Quat where
  x : ℝ
  y : ℝ
  z : ℝ
  w : ℝ

/-- `Vector3.length`. -/
noncomputable def vlength (v : Vec3) : ℝ :=
  Real.sqrt (v.x ^ 2 + v.y ^ 2 + v.z ^ 2)

/-- `Vector3.dot`. -/
def dotV (a b : Vec3) : ℝ :=
  a.x * b.x + a.y * b.y + a.z * b.z

/-- `Vector3.normalize`: `divideScalar(this.length() || 1)` — a zero
length is replaced by `1`. -/
noncomputable def normalizeV (v : Vec3) : Vec3 :=
  let d := if vlength v = 0 then 1 else vlength v
  ⟨v.x / d, v.y / d, v.z / d⟩

/-- `Number.EPSILON` of JavaScript, as an exact real constant. -/
noncomputable def numberEpsilon : ℝ := 1 / 2 ^ 52

/-- `Quaternion.length`. -/
noncomputable def quatLength (q : Quat) : ℝ :=
  Real.sqrt (q.x ^ 2 + q.y ^ 2 + q.z ^ 2 + q.w ^ 2)

/-- `Quaternion.normalize`: a zero-length quaternion becomes the
identity, otherwise every component is divided by the length. -/
noncomputable def quatNormalize (q : Quat) : Quat :=
  if quatLength q = 0 then ⟨0, 0, 0, 1⟩
  else ⟨q.x / quatLength q, q.y / quatLength q, q.z / quatLength q, q.w / quatLength q⟩

/-- `Quaternion.setFromUnitVectors(vFrom, vTo)` of three.js: build the
quaternion rotating `vFrom` to `vTo` (both assumed unit), falling back
to a perpendicular 180° axis when the vectors are antiparallel up to
`Number.EPSILON`, and normalize the result. -/
noncomputable def setFromUnitVectors (vFrom vTo : Vec3) : Quat :=
  let r := dotV vFrom vTo + 1
  if r < numberEpsilon then
    (if |vFrom.x| > |vFrom.z| then quatNormalize ⟨-vFrom.y, vFrom.x, 0, 0⟩
     else quatNormalize ⟨0, -vFrom.z, vFrom.y, 0⟩)
  else
    quatNormalize ⟨vFrom.y * vTo.z - vFrom.z * vTo.y,
                   vFrom.z * vTo.x - vFrom.x * vTo.z,
                   vFrom.x * vTo.y - vFrom.y * vTo.x,
                   r⟩

/-- `Vector3.applyQuaternion`. -/
def applyQuaternion (v : Vec3) (q : Quat) : Vec3 :=
  let tx := 2 * (q.y * v.z - q.z * v.y)
  let ty := 2 * (q.z * v.x - q.x * v.z)
  let tz := 2 * (q.x * v.y - q.y * v.x)
  ⟨v.x + q.w * tx + q.y * tz - q.z * ty,
   v.y + q.w * ty + q.z * tx - q.x * tz,
   v.z + q.w * tz + q.x * ty - q.y * tx⟩

/-- `Vector3.lerp(v, alpha)`: `this.x += (v.x - this.x) * alpha`, per
component. -/
def lerpV (a v : Vec3) (alpha : ℝ) : Vec3 :=
  ⟨a.x + (v.x - a.x) * alpha,
   a.y + (v.y - a.y) * alpha,
   a.z + (v.z - a.z) * alpha⟩

/-! ### GeoProjector (`SolarPanels` in Earth.tsx lines 216–233, and
`HobqDataOverlay` lines 112–128) -/

/-- Lat/lon → 3D position, as computed identically by `SolarPanels` and
`HobqDataOverlay`:
`phi = (90 - lat)·π/180`, `theta = (lon + 180)·π/180`,
`(x, y, z) = (-(r·sinφ·cosθ), r·cosφ, r·sinφ·sinθ)`. -/
noncomputable def project (lat lon r : ℝ) : Vec3 :=
  let phi := (90 - lat) * (Real.pi / 180)
  let theta := (lon + 180) * (Real.pi / 180)
  ⟨-(r * Real.sin phi * Real.cos theta),
   r * Real.cos phi,
   r * Real.sin phi * Real.sin theta⟩

/-- The surface orientation both components compute:
`setFromUnitVectors(up, position.clone().normalize())` with
`up = (0,1,0)`. -/
noncomputable def surfaceOrientation (position : Vec3) : Quat :=
  setFromUnitVectors ⟨0, 1, 0⟩ (normalizeV position)

/-- The per-frame batch scale update of `SolarPanels` (`useFrame`,
Earth.tsx lines 245–252): the current scale vector is lerped toward
`(t, t, t)` with `t = 1 + scaleMultiplier·2` and smoothing factor `0.1`. -/
noncomputable def batchScaleStep (currentScale : Vec3) (scaleMultiplier : ℝ) : Vec3 :=
  let targetScale := 1 + scaleMultiplier * 2
  lerpV currentScale ⟨targetScale, targetScale, targetScale⟩ (1 / 10)

/-! ### Gesture classifier (`predictWebcam`, HandController.tsx 173–203)

The landmark points live in the detector's normalized 2D space; the
classifier output keeps real-valued fields. -/

structure Pt where
  x : ℝ
  y : ℝ

/-- `Math.hypot` on two arguments. -/
noncomputable def hypot (a b : ℝ) : ℝ :=
  Real.sqrt (a ^ 2 + b ^ 2)

structure GestureStateR where
  isPalmOpen : Bool
  isFist : Bool
  isPinching : Bool
  pinchDistance : ℝ
  handPosition : ℝ × ℝ

/-- The hand-present branch of `predictWebcam`: derive the three
distances, the three flags (in source order, `isPalmOpen` referring to
the other two flags) and the mirrored cursor. -/
noncomputable def classify (wrist thumbTip indexTip pinkyTip : Pt) : GestureStateR :=
  let pinchDist := hypot (thumbTip.x - indexTip.x) (thumbTip.y - indexTip.y)
  let isPinching : Bool := decide (pinchDist < 8/100)
  let dIndex := hypot (indexTip.x - wrist.x) (indexTip.y - wrist.y)
  let dPinky := hypot (pinkyTip.x - wrist.x) (pinkyTip.y - wrist.y)
  let isFist : Bool := decide (dIndex < 15/100) && decide (dPinky < 15/100)
  let isPalmOpen : Bool := !isFist && !isPinching && decide (dIndex > 2/10)
  let cursorX := 1 - indexTip.x
  let cursorY := indexTip.y
  { isPalmOpen := isPalmOpen
    isFist := isFist
    isPinching := isPinching
    pinchDistance := pinchDist
    handPosition := (cursorX, cursorY) }

/-! ## Theorems -/

/-! ### Throttle (claim C3) -/

/-- Claim C3: a candidate state is emitted iff a boolean flag differs
from the previously emitted state or the pinch distance moved by more
than `0.05`; in particular a candidate differing only by a
`pinchDistance` delta of `0.03` is not emitted while a delta of `0.06`
is. -/
theorem throttle_emits_iff_changed (prev newState : HandGestureState) :
    ((throttleStep prev newState).2 = true ↔
      (prev.isPalmOpen ≠ newState.isPalmOpen ∨ prev.isFist ≠ newState.isFist ∨
        prev.isPinching ≠ newState.isPinching ∨
        |newState.pinchDistance - prev.pinchDistance| > 5/100)) ∧
    (throttleStep prev { prev with pinchDistance := prev.pinchDistance + 3/100 }).2 = false ∧
    (throttleStep prev { prev with pinchDistance := prev.pinchDistance + 6/100 }).2 = true := by
  refine ⟨?_, ?_, ?_⟩
  · have hiff : (throttleStep prev newState).2 = true ↔ hasChanged prev newState = true := by
      unfold throttleStep
      split_ifs with h <;> simp [h]
    rw [hiff]
    simp [hasChanged, abs_sub_comm prev.pinchDistance]
    tauto
  · have hch : hasChanged prev { prev with pinchDistance := prev.pinchDistance + 3/100 } =
        false := by
      simp [hasChanged]
      rw [abs_of_nonneg (by norm_num : (0:ℚ) ≤ 3/100)]
      norm_num
    simp [throttleStep, hch]
  · have hch : hasChanged prev { prev with pinchDistance := prev.pinchDistance + 6/100 } =
        true := by
      simp [hasChanged]
      rw [abs_of_nonneg (by norm_num : (0:ℚ) ≤ 6/100)]
      norm_num
    simp [throttleStep, hch]

/-! ### Control binding (claims C4, C6, C10) -/

/-- The `pvScale` component of one binding step: the rotation rules do
not touch it, and the pinch rule writes the clamped increment exactly
when it moved by more than `0.01`. Helper for the binding claims. -/
theorem applyGesture_pvScale (g : HandGestureState) (c : ControlState) :
    (applyGesture g c).pvScale =
      if g.isPinching then
        (if |min 1 (max 0 (c.pvScale + 2/100)) - c.pvScale| > 1/100
         then min 1 (max 0 (c.pvScale + 2/100)) else c.pvScale)
      else c.pvScale := by
  unfold applyGesture
  cases g.isPalmOpen <;> cases g.isFist <;> cases g.isPinching <;>
    cases har : c.autoRotate <;> simp [har] <;> split_ifs <;> rfl

/-- Claim C4: the binding sets `autoRotate` on an open palm when it was
off, clears it on a fist (palm not open) when it was on, and on a pinch
writes `clamp(pvScale + 0.02, 0, 1)` exactly when that value differs
from `pvScale` by more than `0.01`. -/
theorem applyGesture_rules (g : HandGestureState) (c : ControlState) :
    (g.isPalmOpen = true → c.autoRotate = false → (applyGesture g c).autoRotate = true) ∧
    (g.isPalmOpen = false → g.isFist = true → c.autoRotate = true →
      (applyGesture g c).autoRotate = false) ∧
    (g.isPinching = true →
      (applyGesture g c).pvScale =
        (if |min 1 (max 0 (c.pvScale + 2/100)) - c.pvScale| > 1/100
         then min 1 (max 0 (c.pvScale + 2/100)) else c.pvScale)) ∧
    (g.isPinching = false → (applyGesture g c).pvScale = c.pvScale) := by
  refine ⟨?_, ?_, ?_, ?_⟩
  · intro hp hr
    unfold applyGesture
    simp [hp, hr]
    split_ifs <;> rfl
  · intro hp hf hr
    unfold applyGesture
    simp [hp, hf, hr]
    split_ifs <;> rfl
  · intro hp
    rw [applyGesture_pvScale, if_pos hp]
  · intro hp
    rw [applyGesture_pvScale, if_neg (by simp [hp])]

/-- Closed instance of the binding rules at the application's default
controls under a pinch gesture. -/
theorem applyGesture_rules_witness :
    (applyGesture pinchGesture initialControls).pvScale = 3/25 := by
  have h := (applyGesture_rules pinchGesture initialControls).2.2.1 rfl
  rw [h, show initialControls.pvScale = 1/10 from rfl]
  norm_num [min_def, max_def]
  rw [abs_of_nonneg (by norm_num : (0:ℚ) ≤ 1/50)]
  norm_num

/-- Claim C10: one binding step leaves every control other than
`autoRotate` and `pvScale` unchanged; `autoRotate` changes only under
the palm-open or fist rule, `pvScale` only under a pinching gesture
passing the `0.01` guard, and a gesture with all flags down changes
nothing. -/
theorem applyGesture_frame (g : HandGestureState) (c : ControlState) :
    (applyGesture g c).viewMode = c.viewMode ∧
    (applyGesture g c).activeLayer = c.activeLayer ∧
    (applyGesture g c).demStrength = c.demStrength ∧
    (applyGesture g c).particlesEnabled = c.particlesEnabled ∧
    (applyGesture g c).highlightColor = c.highlightColor ∧
    (applyGesture g c).pvColor = c.pvColor ∧
    ((applyGesture g c).autoRotate ≠ c.autoRotate →
      (g.isPalmOpen = true ∧ c.autoRotate = false) ∨
      (g.isPalmOpen = false ∧ g.isFist = true ∧ c.autoRotate = true)) ∧
    ((applyGesture g c).pvScale ≠ c.pvScale →
      g.isPinching = true ∧ |min 1 (max 0 (c.pvScale + 2/100)) - c.pvScale| > 1/100) ∧
    (g.isPalmOpen = false → g.isFist = false → g.isPinching = false →
      applyGesture g c = c) := by
  unfold applyGesture
  cases hpa : g.isPalmOpen <;> cases hfi : g.isFist <;> cases hpi : g.isPinching <;>
    cases hro : c.autoRotate <;> simp [hro] <;> split_ifs <;> simp_all

/-- Closed instance of the frame condition: a neutral gesture leaves the
default controls untouched. -/
theorem applyGesture_frame_witness :
    applyGesture { pinchGesture with isPinching := false } initialControls =
      initialControls := by
  have h := applyGesture_frame { pinchGesture with isPinching := false } initialControls
  exact h.2.2.2.2.2.2.2.2 rfl rfl rfl

/-- One binding step neither decreases `pvScale` nor pushes it past `1`,
whatever the gesture. Helper for the saturation claim. -/
theorem pvScale_step_bounds (g : HandGestureState) (c : ControlState)
    (h1 : c.pvScale ≤ 1) :
    c.pvScale ≤ (applyGesture g c).pvScale ∧ (applyGesture g c).pvScale ≤ 1 := by
  rw [applyGesture_pvScale]
  have hle : c.pvScale ≤ min 1 (max 0 (c.pvScale + 2/100)) :=
    le_min h1 (le_max_of_le_right (by linarith))
  have hub : min 1 (max 0 (c.pvScale + 2/100)) ≤ 1 := min_le_left _ _
  split_ifs <;> exact ⟨by linarith, by linarith⟩

/-- Any sequence of binding steps keeps `pvScale` within `[0, 1]` and
non-decreasing. Helper for the saturation claim. -/
theorem pvScale_foldl_bounds (gs : List HandGestureState) (c : ControlState)
    (h0 : 0 ≤ c.pvScale) (h1 : c.pvScale ≤ 1) :
    0 ≤ (gs.foldl (fun c2 g2 => applyGesture g2 c2) c).pvScale ∧
    (gs.foldl (fun c2 g2 => applyGesture g2 c2) c).pvScale ≤ 1 ∧
    c.pvScale ≤ (gs.foldl (fun c2 g2 => applyGesture g2 c2) c).pvScale := by
  induction gs generalizing c with
  | nil => exact ⟨h0, h1, le_refl _⟩
  | cons g gs ih =>
    simp only [List.foldl_cons]
    have hstep := pvScale_step_bounds g c h1
    have hrest := ih (applyGesture g c) (le_trans h0 hstep.1) hstep.2
    exact ⟨hrest.1, hrest.2.1, le_trans hstep.1 hrest.2.2⟩

/-- Claim C6 (amended): starting inside `[0, 1]`, pinching events keep
`pvScale` in `[0, 1]` and non-decreasing with no overshoot; an event
adds exactly `0.02` while `pvScale ≤ 0.98`, jumps to exactly `1` when
`0.98 < pvScale < 0.99`, and is suppressed (no write, since the clamped
increment moves by at most `0.01`) once `pvScale ≥ 0.99` — so the scale
need not saturate at exactly `1`. -/
theorem pvScale_pinch_dynamics (g : HandGestureState) (c : ControlState)
    (hg : g.isPinching = true) (h0 : 0 ≤ c.pvScale) (h1 : c.pvScale ≤ 1) :
    (0 ≤ (applyGesture g c).pvScale ∧ (applyGesture g c).pvScale ≤ 1 ∧
      c.pvScale ≤ (applyGesture g c).pvScale) ∧
    (c.pvScale ≤ 49/50 → (applyGesture g c).pvScale = c.pvScale + 1/50) ∧
    (49/50 < c.pvScale → c.pvScale < 99/100 → (applyGesture g c).pvScale = 1) ∧
    (99/100 ≤ c.pvScale →
      min 1 (max 0 (c.pvScale + 2/100)) - c.pvScale ≤ 1/100 ∧
      (applyGesture g c).pvScale = c.pvScale) ∧
    (∀ gs : List HandGestureState,
      0 ≤ (gs.foldl (fun c2 g2 => applyGesture g2 c2) c).pvScale ∧
      (gs.foldl (fun c2 g2 => applyGesture g2 c2) c).pvScale ≤ 1 ∧
      c.pvScale ≤ (gs.foldl (fun c2 g2 => applyGesture g2 c2) c).pvScale) := by
  have hmax : max 0 (c.pvScale + 2/100) = c.pvScale + 2/100 := max_eq_right (by linarith)
  have hstep := pvScale_step_bounds g c h1
  refine ⟨⟨le_trans h0 hstep.1, hstep.2, hstep.1⟩, ?_, ?_, ?_,
    fun gs => pvScale_foldl_bounds gs c h0 h1⟩
  · intro hlow
    have hmin : min 1 (max 0 (c.pvScale + 2/100)) = c.pvScale + 2/100 := by
      rw [hmax]
      exact min_eq_right (by linarith)
    rw [applyGesture_pvScale, if_pos hg, hmin, if_pos ?_]
    · norm_num
    · rw [show c.pvScale + 2/100 - c.pvScale = 2/100 by ring,
        abs_of_nonneg (by norm_num : (0:ℚ) ≤ 2/100)]
      norm_num
  · intro hhi hlt
    have hmin : min 1 (max 0 (c.pvScale + 2/100)) = 1 := by
      rw [hmax]
      exact min_eq_left (by linarith)
    rw [applyGesture_pvScale, if_pos hg, hmin, if_pos ?_]
    rw [abs_of_nonneg (by linarith : (0:ℚ) ≤ 1 - c.pvScale)]
    linarith
  · intro hsat
    have hmin : min 1 (max 0 (c.pvScale + 2/100)) = 1 := by
      rw [hmax]
      exact min_eq_left (by linarith)
    refine ⟨by rw [hmin]; linarith, ?_⟩
    rw [applyGesture_pvScale, if_pos hg, hmin, if_neg ?_]
    rw [abs_of_nonneg (by linarith : (0:ℚ) ≤ 1 - c.pvScale)]
    linarith

/-- Closed instance of the pinch dynamics at the default controls: one
pinch moves `pvScale` from `0.1` to `0.12`. -/
theorem pvScale_pinch_dynamics_witness :
    (applyGesture pinchGesture initialControls).pvScale =
      initialControls.pvScale + 1/50 := by
  have h := pvScale_pinch_dynamics pinchGesture initialControls rfl
    (by norm_num [initialControls]) (by norm_num [initialControls])
  exact h.2.1 (by norm_num [initialControls])

/-- Counterexample to claim C6 as stated: from `pvScale = 0.985` an
accepted pinch writes `1` — an increment of `0.015`, not `0.02` — and
from `pvScale = 0.995` every pinch is suppressed, so the scale never
saturates at exactly `1`. -/
theorem pvScale_pinch_counterexample :
    (applyGesture pinchGesture { initialControls with pvScale := 197/200 }).pvScale ≠
        197/200 + 1/50 ∧
    (applyGesture pinchGesture { initialControls with pvScale := 197/200 }).pvScale ≠
        197/200 ∧
    (applyGesture pinchGesture { initialControls with pvScale := 199/200 }).pvScale =
        199/200 := by
  have hpin : pinchGesture.isPinching = true := rfl
  have h197 : (applyGesture pinchGesture
      { initialControls with pvScale := 197/200 }).pvScale = 1 := by
    have hpv : ({ initialControls with pvScale := 197/200 } : ControlState).pvScale =
        197/200 := rfl
    have hmin : (1 : ℚ) ⊓ (0 ⊔ (197/200 + 2/100)) = 1 := by
      norm_num [min_def, max_def]
    have hcond : |(1:ℚ) - 197/200| > 1/100 := by
      rw [abs_of_nonneg (by norm_num : (0:ℚ) ≤ 1 - 197/200)]
      norm_num
    rw [applyGesture_pvScale, if_pos hpin, hpv, hmin, if_pos hcond]
  have h199 : (applyGesture pinchGesture
      { initialControls with pvScale := 199/200 }).pvScale = 199/200 := by
    have hpv : ({ initialControls with pvScale := 199/200 } : ControlState).pvScale =
        199/200 := rfl
    have hmin : (1 : ℚ) ⊓ (0 ⊔ (199/200 + 2/100)) = 1 := by
      norm_num [min_def, max_def]
    have hcond : ¬(|(1:ℚ) - 199/200| > 1/100) := by
      rw [abs_of_nonneg (by norm_num : (0:ℚ) ≤ 1 - 199/200)]
      norm_num
    rw [applyGesture_pvScale, if_pos hpin, hpv, hmin, if_neg hcond]
  refine ⟨by rw [h197]; norm_num, by rw [h197]; norm_num, h199⟩

/-! ### Classifier (claims C2, C5, C9) -/

/-- The stored pinch distance is the thumb-tip to index-tip hypotenuse. -/
theorem classify_pinchDistance (wrist thumbTip indexTip pinkyTip : Pt) :
    (classify wrist thumbTip indexTip pinkyTip).pinchDistance =
      hypot (thumbTip.x - indexTip.x) (thumbTip.y - indexTip.y) := rfl

/-- Characterization of the pinching flag. Helper shared by the
classifier claims. -/
theorem classify_isPinching_iff (wrist thumbTip indexTip pinkyTip : Pt) :
    (classify wrist thumbTip indexTip pinkyTip).isPinching = true ↔
      hypot (thumbTip.x - indexTip.x) (thumbTip.y - indexTip.y) < 8/100 := by
  simp [classify]

/-- Characterization of the fist flag. Helper shared by the classifier
claims. -/
theorem classify_isFist_iff (wrist thumbTip indexTip pinkyTip : Pt) :
    (classify wrist thumbTip indexTip pinkyTip).isFist = true ↔
      (hypot (indexTip.x - wrist.x) (indexTip.y - wrist.y) < 15/100 ∧
        hypot (pinkyTip.x - wrist.x) (pinkyTip.y - wrist.y) < 15/100) := by
  simp [classify]

/-- Characterization of the open-palm flag. Helper shared by the
classifier claims. -/
theorem classify_isPalmOpen_iff (wrist thumbTip indexTip pinkyTip : Pt) :
    (classify wrist thumbTip indexTip pinkyTip).isPalmOpen = true ↔
      ((classify wrist thumbTip indexTip pinkyTip).isFist = false ∧
        (classify wrist thumbTip indexTip pinkyTip).isPinching = false ∧
        hypot (indexTip.x - wrist.x) (indexTip.y - wrist.y) > 2/10) := by
  have hpalm : (classify wrist thumbTip indexTip pinkyTip).isPalmOpen =
      (!(classify wrist thumbTip indexTip pinkyTip).isFist &&
        !(classify wrist thumbTip indexTip pinkyTip).isPinching &&
        decide (hypot (indexTip.x - wrist.x) (indexTip.y - wrist.y) > 2/10)) := rfl
  rw [hpalm]
  simp [Bool.and_eq_true, Bool.not_eq_true', and_assoc]

/-- Claim C2: the classifier flags are exactly the thresholded Euclidean
distances of the source—`isPinching ↔ pinchDist < 0.08`,
`isFist ↔ dIndex < 0.15 ∧ dPinky < 0.15`, and
`isPalmOpen ↔ ¬isFist ∧ ¬isPinching ∧ dIndex > 0.2`—with each distance
the 2D Euclidean distance between the corresponding landmarks. -/
theorem classify_thresholds (wrist thumbTip indexTip pinkyTip : Pt) :
    ((classify wrist thumbTip indexTip pinkyTip).isPinching = true ↔
      Real.sqrt ((thumbTip.x - indexTip.x) ^ 2 + (thumbTip.y - indexTip.y) ^ 2) < 8/100) ∧
    ((classify wrist thumbTip indexTip pinkyTip).isFist = true ↔
      (Real.sqrt ((indexTip.x - wrist.x) ^ 2 + (indexTip.y - wrist.y) ^ 2) < 15/100 ∧
        Real.sqrt ((pinkyTip.x - wrist.x) ^ 2 + (pinkyTip.y - wrist.y) ^ 2) < 15/100)) ∧
    ((classify wrist thumbTip indexTip pinkyTip).isPalmOpen = true ↔
      (¬(classify wrist thumbTip indexTip pinkyTip).isFist = true ∧
        ¬(classify wrist thumbTip indexTip pinkyTip).isPinching = true ∧
        Real.sqrt ((indexTip.x - wrist.x) ^ 2 + (indexTip.y - wrist.y) ^ 2) > 2/10)) := by
  refine ⟨classify_isPinching_iff wrist thumbTip indexTip pinkyTip,
    classify_isFist_iff wrist thumbTip indexTip pinkyTip, ?_⟩
  rw [classify_isPalmOpen_iff wrist thumbTip indexTip pinkyTip]
  simp [hypot, Bool.not_eq_true]

/-- Counterexample to claim C5 as stated: with all four landmark points
equal (a degenerate but well-formed landmark set) both `isPinching` and
`isFist` hold, so the three flags are not mutually exclusive. -/
theorem classify_not_exclusive :
    (classify ⟨1/2, 1/2⟩ ⟨1/2, 1/2⟩ ⟨1/2, 1/2⟩ ⟨1/2, 1/2⟩).isPinching = true ∧
    (classify ⟨1/2, 1/2⟩ ⟨1/2, 1/2⟩ ⟨1/2, 1/2⟩ ⟨1/2, 1/2⟩).isFist = true := by
  constructor
  · rw [classify_isPinching_iff]
    norm_num [hypot]
  · rw [classify_isFist_iff]
    norm_num [hypot]

/-- Claim C5 (amended): `isPalmOpen` never holds together with `isFist`
or `isPinching` (its definition negates both), but `isPinching` and
`isFist` are computed independently and can co-occur. -/
theorem classify_palmOpen_excludes (wrist thumbTip indexTip pinkyTip : Pt) :
    ((classify wrist thumbTip indexTip pinkyTip).isPalmOpen &&
      ((classify wrist thumbTip indexTip pinkyTip).isFist ||
        (classify wrist thumbTip indexTip pinkyTip).isPinching)) = false := by
  cases hpo : (classify wrist thumbTip indexTip pinkyTip).isPalmOpen
  · simp
  · have h := (classify_isPalmOpen_iff wrist thumbTip indexTip pinkyTip).mp hpo
    simp [h.1, h.2.1]

/-- Counterexample to claim C9 as stated: a landmark set with
`pinchDist = 0.05` whose index and pinky tips sit on the wrist, so
`isFist` is `true` rather than the claimed `false`. -/
theorem classify_pinch005_counterexample :
    (classify ⟨1/2, 1/2⟩ ⟨1/2, 1/2⟩ ⟨1/2 + 1/20, 1/2⟩ ⟨1/2, 1/2⟩).pinchDistance = 5/100 ∧
    (classify ⟨1/2, 1/2⟩ ⟨1/2, 1/2⟩ ⟨1/2 + 1/20, 1/2⟩ ⟨1/2, 1/2⟩).isFist = true := by
  have h20 : Real.sqrt ((1/20 : ℝ) ^ 2) = 1/20 := Real.sqrt_sq (by norm_num)
  constructor
  · rw [classify_pinchDistance]
    unfold hypot
    rw [show ((1/2 : ℝ) - (1/2 + 1/20)) ^ 2 + ((1/2 : ℝ) - 1/2) ^ 2 = (1/20) ^ 2 by ring]
    rw [h20]
    norm_num
  · rw [classify_isFist_iff]
    unfold hypot
    constructor
    · rw [show ((1/2 : ℝ) + 1/20 - 1/2) ^ 2 + ((1/2 : ℝ) - 1/2) ^ 2 = (1/20) ^ 2 by ring]
      rw [h20]
      norm_num
    · rw [show ((1/2 : ℝ) - 1/2) ^ 2 + ((1/2 : ℝ) - 1/2) ^ 2 = 0 ^ 2 by ring]
      rw [Real.sqrt_sq le_rfl]
      norm_num

/-- Claim C9 (amended): on every landmark set whose thumb-to-index
distance is exactly `0.05`, the classifier reports `isPinching = true`
and `isPalmOpen = false`; `isFist` is independent of the pinch distance
and is not determined. -/
theorem classify_pinch005 (wrist thumbTip indexTip pinkyTip : Pt)
    (h : (classify wrist thumbTip indexTip pinkyTip).pinchDistance = 5/100) :
    (classify wrist thumbTip indexTip pinkyTip).isPinching = true ∧
    (classify wrist thumbTip indexTip pinkyTip).isPalmOpen = false := by
  rw [classify_pinchDistance] at h
  have hp : (classify wrist thumbTip indexTip pinkyTip).isPinching = true := by
    rw [classify_isPinching_iff, h]
    norm_num
  refine ⟨hp, ?_⟩
  cases hpo : (classify wrist thumbTip indexTip pinkyTip).isPalmOpen
  · rfl
  · have hcontra := (classify_isPalmOpen_iff wrist thumbTip indexTip pinkyTip).mp hpo
    rw [hp] at hcontra
    exact absurd hcontra.2.1 (by simp)

/-- Closed instance of the `pinchDist = 0.05` behaviour. -/
theorem classify_pinch005_witness :
    (classify ⟨0, 0⟩ ⟨0, 0⟩ ⟨1/20, 0⟩ ⟨0, 0⟩).isPinching = true ∧
    (classify ⟨0, 0⟩ ⟨0, 0⟩ ⟨1/20, 0⟩ ⟨0, 0⟩).isPalmOpen = false := by
  apply classify_pinch005
  rw [classify_pinchDistance]
  unfold hypot
  rw [show ((0 : ℝ) - 1/20) ^ 2 + ((0 : ℝ) - 0) ^ 2 = (1/20) ^ 2 by ring]
  rw [Real.sqrt_sq (by norm_num : (0:ℝ) ≤ 1/20)]
  norm_num

/-! ### GeoProjector (claims C1, C8, C7) -/

/-- Claim C1: `project` returns exactly
`(-(r·sinφ·cosθ), r·cosφ, r·sinφ·sinθ)` with `φ = (90 − lat)·π/180` and
`θ = (lon + 180)·π/180`; at `lat = 0`, `lon = 0` the position is
`(r, 0, 0)` — zero `y`-component, positive `x` along the radius, zero
`z`. -/
theorem project_formula (lat lon r : ℝ) :
    project lat lon r =
      ⟨-(r * Real.sin ((90 - lat) * (Real.pi / 180)) *
          Real.cos ((lon + 180) * (Real.pi / 180))),
        r * Real.cos ((90 - lat) * (Real.pi / 180)),
        r * Real.sin ((90 - lat) * (Real.pi / 180)) *
          Real.sin ((lon + 180) * (Real.pi / 180))⟩ ∧
    project 0 0 r = ⟨r, 0, 0⟩ := by
  refine ⟨rfl, ?_⟩
  have hphi : (90 : ℝ) * (Real.pi / 180) = Real.pi / 2 := by ring
  have htheta : (180 : ℝ) * (Real.pi / 180) = Real.pi := by ring
  refine Vec3.ext ?_ ?_ ?_ <;> simp [project, hphi, htheta]

/-- Claim C8: the per-frame batch scale is exponentially smoothed, not
snapped: the new scale is `current + (target − current)·0.1` per
component with `target = 1 + pvScale·2`, and it equals the target only
when the current scale already does. -/
theorem batchScaleStep_formula (currentScale : Vec3) (scaleMultiplier : ℝ) :
    batchScaleStep currentScale scaleMultiplier =
      ⟨currentScale.x + ((1 + scaleMultiplier * 2) - currentScale.x) * (1/10),
        currentScale.y + ((1 + scaleMultiplier * 2) - currentScale.y) * (1/10),
        currentScale.z + ((1 + scaleMultiplier * 2) - currentScale.z) * (1/10)⟩ ∧
    (batchScaleStep currentScale scaleMultiplier =
        ⟨1 + scaleMultiplier * 2, 1 + scaleMultiplier * 2, 1 + scaleMultiplier * 2⟩ ↔
      currentScale =
        ⟨1 + scaleMultiplier * 2, 1 + scaleMultiplier * 2, 1 + scaleMultiplier * 2⟩) := by
  refine ⟨rfl, ?_⟩
  unfold batchScaleStep lerpV
  constructor
  · intro h
    have hx := congrArg Vec3.x h
    have hy := congrArg Vec3.y h
    have hz := congrArg Vec3.z h
    simp only at hx hy hz
    ext <;> simp only <;> linarith
  · intro h
    rw [h]
    ext <;> simp only <;> ring

/-- `Number.EPSILON` is positive. Helper for the orientation claim. -/
theorem numberEpsilon_pos : 0 < numberEpsilon := by
  unfold numberEpsilon
  positivity

/-- Applying any quaternion to the canonical up vector, in closed form.
Helper for the orientation claim. -/
theorem applyQuaternion_up (q : Quat) :
    applyQuaternion ⟨0, 1, 0⟩ q =
      ⟨2 * (q.x * q.y - q.w * q.z), 1 - 2 * (q.x ^ 2 + q.z ^ 2),
        2 * (q.w * q.x + q.y * q.z)⟩ := by
  refine Vec3.ext ?_ ?_ ?_ <;> simp [applyQuaternion] <;> ring

/-- The squared norm of a projected point is the squared radius. Helper
for the orientation claim. -/
theorem project_norm_sq (lat lon r : ℝ) :
    (project lat lon r).x ^ 2 + (project lat lon r).y ^ 2 + (project lat lon r).z ^ 2 =
      r ^ 2 := by
  have hs := Real.sin_sq_add_cos_sq ((90 - lat) * (Real.pi / 180))
  have ht := Real.sin_sq_add_cos_sq ((lon + 180) * (Real.pi / 180))
  show (-(r * Real.sin ((90 - lat) * (Real.pi / 180)) *
        Real.cos ((lon + 180) * (Real.pi / 180)))) ^ 2 +
      (r * Real.cos ((90 - lat) * (Real.pi / 180))) ^ 2 +
      (r * Real.sin ((90 - lat) * (Real.pi / 180)) *
        Real.sin ((lon + 180) * (Real.pi / 180))) ^ 2 = r ^ 2
  linear_combination (r ^ 2 * Real.sin ((90 - lat) * (Real.pi / 180)) ^ 2) * ht +
    r ^ 2 * hs

/-- The length of a projected point is the (non-negative) radius. Helper
for the orientation claim. -/
theorem vlength_project (lat lon r : ℝ) (hr : 0 ≤ r) :
    vlength (project lat lon r) = r := by
  unfold vlength
  rw [project_norm_sq lat lon r]
  exact Real.sqrt_sq hr

/-- Normalizing a projected point (positive radius) yields the unit
direction vector with the same sign convention. Helper for the
orientation claim. -/
theorem normalizeV_project (lat lon r : ℝ) (hr : 0 < r) :
    normalizeV (project lat lon r) =
      ⟨-(Real.sin ((90 - lat) * (Real.pi / 180)) * Real.cos ((lon + 180) * (Real.pi / 180))),
        Real.cos ((90 - lat) * (Real.pi / 180)),
        Real.sin ((90 - lat) * (Real.pi / 180)) * Real.sin ((lon + 180) * (Real.pi / 180))⟩ := by
  unfold normalizeV
  rw [vlength_project lat lon r hr.le, if_neg hr.ne']
  refine Vec3.ext ?_ ?_ ?_ <;> simp only [project] <;> field_simp <;> ring

/-- Rotating the up vector by the quaternion `setFromUnitVectors` builds
from it and a unit target returns exactly the target, provided the
target is not antiparallel to up within `Number.EPSILON`. Helper for the
orientation claim. -/
theorem applyQuaternion_setFromUnitVectors_up (t : Vec3)
    (hunit : t.x ^ 2 + t.y ^ 2 + t.z ^ 2 = 1) (heps : numberEpsilon ≤ 1 + t.y) :
    applyQuaternion ⟨0, 1, 0⟩ (setFromUnitVectors ⟨0, 1, 0⟩ t) = t := by
  have hy : (0:ℝ) < 1 + t.y := lt_of_lt_of_le numberEpsilon_pos heps
  have hbr : ¬(t.y + 1 < numberEpsilon) := by linarith
  have hq : setFromUnitVectors ⟨0, 1, 0⟩ t =
      quatNormalize ⟨t.z, 0, -t.x, t.y + 1⟩ := by
    simp only [setFromUnitVectors, dotV, zero_mul, one_mul, add_zero, zero_add,
      zero_sub, sub_zero, sub_self]
    rw [if_neg hbr]
  have hS : t.z ^ 2 + (0:ℝ) ^ 2 + (-t.x) ^ 2 + (t.y + 1) ^ 2 = 2 * (1 + t.y) := by
    linear_combination hunit
  have hL : quatLength ⟨t.z, 0, -t.x, t.y + 1⟩ = Real.sqrt (2 * (1 + t.y)) := by
    show Real.sqrt (t.z ^ 2 + (0:ℝ) ^ 2 + (-t.x) ^ 2 + (t.y + 1) ^ 2) = _
    rw [hS]
  have hLpos : 0 < Real.sqrt (2 * (1 + t.y)) := Real.sqrt_pos.mpr (by linarith)
  have hL2 : Real.sqrt (2 * (1 + t.y)) * Real.sqrt (2 * (1 + t.y)) = 2 * (1 + t.y) :=
    Real.mul_self_sqrt (by linarith)
  have hqn : quatNormalize ⟨t.z, 0, -t.x, t.y + 1⟩ =
      ⟨t.z / Real.sqrt (2 * (1 + t.y)), 0, -t.x / Real.sqrt (2 * (1 + t.y)),
        (t.y + 1) / Real.sqrt (2 * (1 + t.y))⟩ := by
    unfold quatNormalize
    rw [hL, if_neg hLpos.ne']
    refine Quat.ext ?_ ?_ ?_ ?_ <;> simp
  rw [hq, hqn, applyQuaternion_up]
  have hLne := hLpos.ne'
  set L := Real.sqrt (2 * (1 + t.y)) with hLdef
  refine Vec3.ext ?_ ?_ ?_ <;> simp only <;> field_simp
  · linear_combination (-t.x) * hL2
  · linear_combination (1 - t.y) * hL2 - 2 * hunit
  · linear_combination (-t.z) * hL2

/-- Normalizing the unit-z 180° quaternion is the identity operation.
Helper for the orientation claim. -/
theorem quatNormalize_unitZ : quatNormalize ⟨0, 0, 1, 0⟩ = ⟨0, 0, 1, 0⟩ := by
  unfold quatNormalize quatLength
  norm_num

/-- Claim C7 (amended): for every coordinate whose surface direction is
not antiparallel to the up axis within `Number.EPSILON`
(`numberEpsilon ≤ 1 + cos φ`), and also at the exact south pole
`lat = -90`, the orientation quaternion maps the canonical up axis
`(0,1,0)` onto `project(coord, r)` normalized. In the thin band where
`0 < 1 + cos φ < numberEpsilon` the three.js antiparallel fallback fires
and the property fails (see the counterexample). -/
theorem surfaceOrientation_maps_up (lat lon r : ℝ) (hr : 0 < r)
    (h : numberEpsilon ≤ 1 + Real.cos ((90 - lat) * (Real.pi / 180)) ∨ lat = -90) :
    applyQuaternion ⟨0, 1, 0⟩ (surfaceOrientation (project lat lon r)) =
      normalizeV (project lat lon r) := by
  unfold surfaceOrientation
  rw [normalizeV_project lat lon r hr]
  rcases h with h | h
  · apply applyQuaternion_setFromUnitVectors_up
    · have hs := Real.sin_sq_add_cos_sq ((90 - lat) * (Real.pi / 180))
      have ht := Real.sin_sq_add_cos_sq ((lon + 180) * (Real.pi / 180))
      show (-(Real.sin ((90 - lat) * (Real.pi / 180)) *
          Real.cos ((lon + 180) * (Real.pi / 180)))) ^ 2 +
          Real.cos ((90 - lat) * (Real.pi / 180)) ^ 2 +
          (Real.sin ((90 - lat) * (Real.pi / 180)) *
            Real.sin ((lon + 180) * (Real.pi / 180))) ^ 2 = 1
      linear_combination Real.sin ((90 - lat) * (Real.pi / 180)) ^ 2 * ht + hs
    · exact h
  · subst h
    have hphi : ((90 : ℝ) - (-90)) * (Real.pi / 180) = Real.pi := by ring
    have hveq : (⟨-(Real.sin ((90 - (-90 : ℝ)) * (Real.pi / 180)) *
          Real.cos ((lon + 180) * (Real.pi / 180))),
        Real.cos ((90 - (-90 : ℝ)) * (Real.pi / 180)),
        Real.sin ((90 - (-90 : ℝ)) * (Real.pi / 180)) *
          Real.sin ((lon + 180) * (Real.pi / 180))⟩ : Vec3) = ⟨0, -1, 0⟩ := by
      rw [hphi, Real.sin_pi, Real.cos_pi]
      refine Vec3.ext ?_ ?_ ?_ <;> simp
    rw [hveq]
    have hsq : setFromUnitVectors ⟨0, 1, 0⟩ ⟨0, -1, 0⟩ = quatNormalize ⟨0, 0, 1, 0⟩ := by
      simp only [setFromUnitVectors, dotV]
      norm_num [numberEpsilon_pos]
    rw [hsq, quatNormalize_unitZ, applyQuaternion_up]
    refine Vec3.ext ?_ ?_ ?_ <;> norm_num

/-- Closed instance of the orientation round trip at the origin
coordinate on the unit sphere. -/
theorem surfaceOrientation_maps_up_witness :
    applyQuaternion ⟨0, 1, 0⟩ (surfaceOrientation (project 0 0 1)) =
      normalizeV (project 0 0 1) := by
  apply surfaceOrientation_maps_up 0 0 1 one_pos
  left
  rw [show ((90:ℝ) - 0) * (Real.pi / 180) = Real.pi / 2 by ring, Real.cos_pi_div_two]
  norm_num [numberEpsilon]

/-- Counterexample to claim C7 as stated: at latitude `-90 + 10⁻⁷`
(longitude `0`, radius `50`) the surface direction is antiparallel to up
within `Number.EPSILON`, the three.js fallback produces a fixed 180°
rotation sending up to `(0,-1,0)`, and that differs from the normalized
position, whose `x` component `sin(π/1 800 000 000)` is positive. -/
theorem surfaceOrientation_epsilon_counterexample :
    applyQuaternion ⟨0, 1, 0⟩
        (surfaceOrientation (project (-90 + 1/10000000) 0 50)) ≠
      normalizeV (project (-90 + 1/10000000) 0 50) := by
  have hphi : ((90 : ℝ) - (-90 + 1/10000000)) * (Real.pi / 180) =
      Real.pi - Real.pi / 1800000000 := by ring
  have htheta : ((0 : ℝ) + 180) * (Real.pi / 180) = Real.pi := by ring
  have ha0 : (0:ℝ) < Real.pi / 1800000000 := by positivity
  have ha_lt : Real.pi / 1800000000 < 2/1000000000 := by
    linarith [Real.pi_lt_d2]
  have ha_pi : Real.pi / 1800000000 < Real.pi :=
    div_lt_self Real.pi_pos (by norm_num)
  have hsin_pos : 0 < Real.sin (Real.pi / 1800000000) :=
    Real.sin_pos_of_pos_of_lt_pi ha0 ha_pi
  have hcos_close : 1 - Real.cos (Real.pi / 1800000000) < numberEpsilon := by
    have hb := Real.one_sub_sq_div_two_le_cos (x := Real.pi / 1800000000)
    have hsq : (Real.pi / 1800000000) ^ 2 < (2/1000000000 : ℝ) ^ 2 := by
      nlinarith [ha_lt, ha0]
    unfold numberEpsilon
    nlinarith [hb, hsq]
  have ht : normalizeV (project (-90 + 1/10000000) 0 50) =
      ⟨Real.sin (Real.pi / 1800000000), -Real.cos (Real.pi / 1800000000), 0⟩ := by
    rw [normalizeV_project _ _ _ (by norm_num : (0:ℝ) < 50)]
    rw [hphi, htheta, Real.sin_pi_sub, Real.cos_pi_sub, Real.sin_pi, Real.cos_pi]
    refine Vec3.ext ?_ ?_ ?_ <;> simp
  unfold surfaceOrientation
  rw [ht]
  have hsq2 : setFromUnitVectors ⟨0, 1, 0⟩
      ⟨Real.sin (Real.pi / 1800000000), -Real.cos (Real.pi / 1800000000), 0⟩ =
      quatNormalize ⟨0, 0, 1, 0⟩ := by
    have hcond : (0:ℝ) * Real.sin (Real.pi / 1800000000) +
        1 * -Real.cos (Real.pi / 1800000000) + 0 * 0 + 1 < numberEpsilon := by
      ring_nf
      ring_nf at hcos_close
      linarith [hcos_close]
    simp only [setFromUnitVectors, dotV]
    rw [if_pos hcond]
    norm_num
  rw [hsq2, quatNormalize_unitZ, applyQuaternion_up]
  intro hcontra
  have hx := congrArg Vec3.x hcontra
  norm_num at hx
  linarith [hsin_pos, hx]

end Hobq
